import Mathlib

/-!
Shallow embedding of `src/universal_mcp_semanticscholar/app.py`:
the `SemanticscholarApp` adapter class and its fourteen operations.

Each Python method is translated into a Lean function taking the adapter
state, an explicit HTTP transport (a function from requests to responses),
and the method's arguments as `Option Value` (Python `None` is `none`).
The function returns the list of HTTP requests it issued, the outcome
(the decoded JSON body, a `ValueError`, or the HTTP status error raised by
`raise_for_status`), and the adapter state after the call.
-/

namespace Semanticscholar

/-- A Python value passed as an operation argument: the adapter forwards
strings, integers and arrays of strings. -/
inductive Value where
  | str (s : String)
  | int (n : Int)
  | arr (elems : List String)
deriving DecidableEq, Repr

/-- Python `str()` as applied by the f-string interpolation of path
parameters (`f"{self.base_url}/paper/{paper_id}"`). -/
def Value.toStr : Value → String
  | .str s => s
  | .int n => toString n
  | .arr elems => "[" ++ String.intercalate ", " (elems.map (fun s => "'" ++ s ++ "'")) ++ "]"

/-- An opaque JSON document, as decoded by `response.json()`. The adapter
never inspects it. -/
inductive Json where
  | null
  | bool (b : Bool)
  | num (n : Int)
  | str (s : String)
  | arr (elems : List Json)
  | obj (fields : List (String × Json))

/-- The two HTTP verbs the adapter uses (`self._get`, `self._post`). -/
inductive HttpMethod where
  | GET
  | POST
deriving DecidableEq, Repr

/-- One outbound HTTP request: verb, URL, query parameters and (for POST)
the JSON body, both as ordered key-value mappings. -/
structure HttpRequest where
  method : HttpMethod
  url : String
  params : List (String × Value)
  body : List (String × Value)

/-- The transport's answer: an HTTP status code and the decoded body. -/
structure HttpResponse where
  status : Nat
  json : Json

/-- The HTTP transport underneath `self._get` / `self._post`, modelled as a
function so that a mocked transport is just a Lean function. -/
def Transport := HttpRequest → HttpResponse

/-- An error escaping an operation: the `ValueError` of the required
parameter check, or the status error raised by `response.raise_for_status()`. -/
inductive Error where
  | valueError (msg : String)
  | httpStatusError (status : Nat)
deriving DecidableEq, Repr

/-- The `Integration` credential provider passed to the constructor:
external to this adapter, held only by reference. -/
structure Integration where
  name : String
deriving DecidableEq, Repr

/-- The adapter's state after `__init__`: the application name and
integration set by `super().__init__`, and `self.base_url`. -/
structure SemanticscholarApp where
  name : String
  integration : Option Integration
  base_url : String
deriving DecidableEq, Repr

/-- `SemanticscholarApp.__init__`: stores the integration and sets
`self.base_url = "/graph/v1"`. -/
def SemanticscholarApp.init (integration : Option Integration := none) : SemanticscholarApp :=
  { name := "semanticscholarapp", integration := integration, base_url := "/graph/v1" }

/-- What one operation call produced: the HTTP requests it issued (in
order), its outcome, and the adapter state when it returned or raised. -/
structure OpResult where
  requests : List HttpRequest
  result : Except Error Json
  app : SemanticscholarApp

/-- The dict comprehension `{k: v for k, v in pairs if v is not None}`:
keep the pairs whose value is present, in order. -/
def filterNone (pairs : List (String × Option Value)) : List (String × Value) :=
  pairs.filterMap (fun p => p.2.map (fun v => (p.1, v)))

/-- `self._get`/`self._post` followed by `response.raise_for_status()` and
`response.json()`: issue the one request; a 2xx status yields the decoded
body, any other status raises the transport's status error. -/
def httpCall (app : SemanticscholarApp) (t : Transport) (req : HttpRequest) : OpResult :=
  let resp := t req
  { requests := [req]
    result := if 200 ≤ resp.status ∧ resp.status < 300 then .ok resp.json
              else .error (.httpStatusError resp.status)
    app := app }

/-- `post_graph_get_authors`: POST `{base_url}/author/batch` with body
`{ids}` and query `{fields}`, both filtered of absent values. -/
def post_graph_get_authors (app : SemanticscholarApp) (t : Transport)
    (fields : Option Value := none) (ids : Option Value := none) : OpResult :=
  let request_body := filterNone [("ids", ids)]
  let url := app.base_url ++ "/author/batch"
  let query_params := filterNone [("fields", fields)]
  httpCall app t { method := .POST, url := url, params := query_params, body := request_body }

/-- `get_graph_get_author_search`: GET `{base_url}/author/search` with
query `{offset, limit, fields, query}` filtered of absent values. -/
def get_graph_get_author_search (app : SemanticscholarApp) (t : Transport)
    (query : Option Value) (offset : Option Value := none) (limit : Option Value := none)
    (fields : Option Value := none) : OpResult :=
  let url := app.base_url ++ "/author/search"
  let query_params :=
    filterNone [("offset", offset), ("limit", limit), ("fields", fields), ("query", query)]
  httpCall app t { method := .GET, url := url, params := query_params, body := [] }

/-- `get_graph_get_author`: `ValueError` when `author_id` is `None`,
otherwise GET `{base_url}/author/{author_id}` with query `{fields}`. -/
def get_graph_get_author (app : SemanticscholarApp) (t : Transport)
    (author_id : Option Value) (fields : Option Value := none) : OpResult :=
  match author_id with
  | none =>
      { requests := []
        result := .error (.valueError "Missing required parameter 'author_id'")
        app := app }
  | some aid =>
      let url := app.base_url ++ "/author/" ++ aid.toStr
      let query_params := filterNone [("fields", fields)]
      httpCall app t { method := .GET, url := url, params := query_params, body := [] }

/-- `get_graph_get_author_papers`: `ValueError` when `author_id` is `None`,
otherwise GET `{base_url}/author/{author_id}/papers` with query
`{offset, limit, fields}`. -/
def get_graph_get_author_papers (app : SemanticscholarApp) (t : Transport)
    (author_id : Option Value) (offset : Option Value := none) (limit : Option Value := none)
    (fields : Option Value := none) : OpResult :=
  match author_id with
  | none =>
      { requests := []
        result := .error (.valueError "Missing required parameter 'author_id'")
        app := app }
  | some aid =>
      let url := app.base_url ++ "/author/" ++ aid.toStr ++ "/papers"
      let query_params := filterNone [("offset", offset), ("limit", limit), ("fields", fields)]
      httpCall app t { method := .GET, url := url, params := query_params, body := [] }

/-- `get_graph_get_paper_autocomplete`: GET `{base_url}/paper/autocomplete`
with query `{query}` filtered of absent values. -/
def get_graph_get_paper_autocomplete (app : SemanticscholarApp) (t : Transport)
    (query : Option Value) : OpResult :=
  let url := app.base_url ++ "/paper/autocomplete"
  let query_params := filterNone [("query", query)]
  httpCall app t { method := .GET, url := url, params := query_params, body := [] }

/-- `post_graph_get_papers`: POST `{base_url}/paper/batch` with body
`{ids}` and query `{fields}`, both filtered of absent values. -/
def post_graph_get_papers (app : SemanticscholarApp) (t : Transport)
    (fields : Option Value := none) (ids : Option Value := none) : OpResult :=
  let request_body := filterNone [("ids", ids)]
  let url := app.base_url ++ "/paper/batch"
  let query_params := filterNone [("fields", fields)]
  httpCall app t { method := .POST, url := url, params := query_params, body := request_body }

/-- `get_graph_paper_relevance_search`: GET `{base_url}/paper/search` with
the eleven-entry query mapping filtered of absent values. -/
def get_graph_paper_relevance_search (app : SemanticscholarApp) (t : Transport)
    (query : Option Value) (fields : Option Value := none)
    (publicationTypes : Option Value := none) (openAccessPdf : Option Value := none)
    (minCitationCount : Option Value := none) (publicationDateOrYear : Option Value := none)
    (year : Option Value := none) (venue : Option Value := none)
    (fieldsOfStudy : Option Value := none) (offset : Option Value := none)
    (limit : Option Value := none) : OpResult :=
  let url := app.base_url ++ "/paper/search"
  let query_params := filterNone
    [("query", query), ("fields", fields), ("publicationTypes", publicationTypes),
     ("openAccessPdf", openAccessPdf), ("minCitationCount", minCitationCount),
     ("publicationDateOrYear", publicationDateOrYear), ("year", year), ("venue", venue),
     ("fieldsOfStudy", fieldsOfStudy), ("offset", offset), ("limit", limit)]
  httpCall app t { method := .GET, url := url, params := query_params, body := [] }

/-- `get_graph_paper_bulk_search`: GET `{base_url}/paper/search/bulk` with
the eleven-entry query mapping filtered of absent values. -/
def get_graph_paper_bulk_search (app : SemanticscholarApp) (t : Transport)
    (query : Option Value) (token : Option Value := none) (fields : Option Value := none)
    (sort : Option Value := none) (publicationTypes : Option Value := none)
    (openAccessPdf : Option Value := none) (minCitationCount : Option Value := none)
    (publicationDateOrYear : Option Value := none) (year : Option Value := none)
    (venue : Option Value := none) (fieldsOfStudy : Option Value := none) : OpResult :=
  let url := app.base_url ++ "/paper/search/bulk"
  let query_params := filterNone
    [("query", query), ("token", token), ("fields", fields), ("sort", sort),
     ("publicationTypes", publicationTypes), ("openAccessPdf", openAccessPdf),
     ("minCitationCount", minCitationCount), ("publicationDateOrYear", publicationDateOrYear),
     ("year", year), ("venue", venue), ("fieldsOfStudy", fieldsOfStudy)]
  httpCall app t { method := .GET, url := url, params := query_params, body := [] }

/-- `get_graph_paper_title_search`: GET `{base_url}/paper/search/match`
with the nine-entry query mapping filtered of absent values. -/
def get_graph_paper_title_search (app : SemanticscholarApp) (t : Transport)
    (query : Option Value) (fields : Option Value := none)
    (publicationTypes : Option Value := none) (openAccessPdf : Option Value := none)
    (minCitationCount : Option Value := none) (publicationDateOrYear : Option Value := none)
    (year : Option Value := none) (venue : Option Value := none)
    (fieldsOfStudy : Option Value := none) : OpResult :=
  let url := app.base_url ++ "/paper/search/match"
  let query_params := filterNone
    [("query", query), ("fields", fields), ("publicationTypes", publicationTypes),
     ("openAccessPdf", openAccessPdf), ("minCitationCount", minCitationCount),
     ("publicationDateOrYear", publicationDateOrYear), ("year", year), ("venue", venue),
     ("fieldsOfStudy", fieldsOfStudy)]
  httpCall app t { method := .GET, url := url, params := query_params, body := [] }

/-- `get_graph_get_paper`: `ValueError` when `paper_id` is `None`,
otherwise GET `{base_url}/paper/{paper_id}` with query `{fields}`. -/
def get_graph_get_paper (app : SemanticscholarApp) (t : Transport)
    (paper_id : Option Value) (fields : Option Value := none) : OpResult :=
  match paper_id with
  | none =>
      { requests := []
        result := .error (.valueError "Missing required parameter 'paper_id'")
        app := app }
  | some pid =>
      let url := app.base_url ++ "/paper/" ++ pid.toStr
      let query_params := filterNone [("fields", fields)]
      httpCall app t { method := .GET, url := url, params := query_params, body := [] }

/-- `get_graph_get_paper_authors`: `ValueError` when `paper_id` is `None`,
otherwise GET `{base_url}/paper/{paper_id}/authors` with query
`{offset, limit, fields}`. -/
def get_graph_get_paper_authors (app : SemanticscholarApp) (t : Transport)
    (paper_id : Option Value) (offset : Option Value := none) (limit : Option Value := none)
    (fields : Option Value := none) : OpResult :=
  match paper_id with
  | none =>
      { requests := []
        result := .error (.valueError "Missing required parameter 'paper_id'")
        app := app }
  | some pid =>
      let url := app.base_url ++ "/paper/" ++ pid.toStr ++ "/authors"
      let query_params := filterNone [("offset", offset), ("limit", limit), ("fields", fields)]
      httpCall app t { method := .GET, url := url, params := query_params, body := [] }

/-- `get_graph_get_paper_citations`: `ValueError` when `paper_id` is `None`,
otherwise GET `{base_url}/paper/{paper_id}/citations` with query
`{offset, limit, fields}`. -/
def get_graph_get_paper_citations (app : SemanticscholarApp) (t : Transport)
    (paper_id : Option Value) (offset : Option Value := none) (limit : Option Value := none)
    (fields : Option Value := none) : OpResult :=
  match paper_id with
  | none =>
      { requests := []
        result := .error (.valueError "Missing required parameter 'paper_id'")
        app := app }
  | some pid =>
      let url := app.base_url ++ "/paper/" ++ pid.toStr ++ "/citations"
      let query_params := filterNone [("offset", offset), ("limit", limit), ("fields", fields)]
      httpCall app t { method := .GET, url := url, params := query_params, body := [] }

/-- `get_graph_get_paper_references`: `ValueError` when `paper_id` is
`None`, otherwise GET `{base_url}/paper/{paper_id}/references` with query
`{offset, limit, fields}`. -/
def get_graph_get_paper_references (app : SemanticscholarApp) (t : Transport)
    (paper_id : Option Value) (offset : Option Value := none) (limit : Option Value := none)
    (fields : Option Value := none) : OpResult :=
  match paper_id with
  | none =>
      { requests := []
        result := .error (.valueError "Missing required parameter 'paper_id'")
        app := app }
  | some pid =>
      let url := app.base_url ++ "/paper/" ++ pid.toStr ++ "/references"
      let query_params := filterNone [("offset", offset), ("limit", limit), ("fields", fields)]
      httpCall app t { method := .GET, url := url, params := query_params, body := [] }

/-- `get_snippet_search`: GET `{base_url}/snippet/search` with query
`{query, limit}` filtered of absent values. -/
def get_snippet_search (app : SemanticscholarApp) (t : Transport)
    (query : Option Value) (limit : Option Value := none) : OpResult :=
  let url := app.base_url ++ "/snippet/search"
  let query_params := filterNone [("query", query), ("limit", limit)]
  httpCall app t { method := .GET, url := url, params := query_params, body := [] }

/-- A transport that answers every request with the same status and body:
the mocked transport of the spec's testable properties. -/
def constTransport (status : Nat) (j : Json) : Transport := fun _ => ⟨status, j⟩

/-- Membership in a filtered mapping: `(k, v)` is an entry of
`filterNone pairs` exactly when `(k, some v)` is an entry of `pairs`. -/
theorem mem_filterNone (pairs : List (String × Option Value)) (k : String) (v : Value) :
    (k, v) ∈ filterNone pairs ↔ (k, some v) ∈ pairs := by
  simp only [filterNone, List.mem_filterMap]
  constructor
  · rintro ⟨⟨k', ov⟩, hmem, hf⟩
    cases ov <;> simp_all
  · intro h
    exact ⟨(k, some v), h, rfl⟩

/-- The filtered mapping of an empty pair list is empty. -/
theorem mem_filterNone_nil (k : String) (v : Value) :
    (k, v) ∈ filterNone [] ↔ False := by
  simp [filterNone]

/-- Unfolding one entry of a filtered mapping: `(k, v)` is in the result
exactly when this entry's key is `k` and its supplied value is `v`, or
`(k, v)` comes from the remaining entries. -/
theorem mem_filterNone_cons (a : String) (o : Option Value)
    (rest : List (String × Option Value)) (k : String) (v : Value) :
    (k, v) ∈ filterNone ((a, o) :: rest) ↔
      (k = a ∧ o = some v) ∨ (k, v) ∈ filterNone rest := by
  rw [mem_filterNone, List.mem_cons, mem_filterNone]
  constructor
  · rintro (h | h)
    · exact Or.inl ⟨(Prod.ext_iff.mp h).1, ((Prod.ext_iff.mp h).2).symm⟩
    · exact Or.inr h
  · rintro (⟨hk, ho⟩ | h)
    · subst hk; rw [ho]; exact Or.inl rfl
    · exact Or.inr h

/-- C1: each of the six operations that require a resource identifier
(`get_graph_get_author`, `get_graph_get_author_papers`,
`get_graph_get_paper`, `get_graph_get_paper_authors`,
`get_graph_get_paper_citations`, `get_graph_get_paper_references`), when
called with that identifier equal to `None`, raises a `ValueError`
synchronously and issues no HTTP request at all. -/
theorem C1_required_identifier_check (app : SemanticscholarApp) (t : Transport)
    (offset limit fields : Option Value) :
    (get_graph_get_author app t none fields).requests = [] ∧
    (get_graph_get_author app t none fields).result =
      .error (.valueError "Missing required parameter 'author_id'") ∧
    (get_graph_get_author_papers app t none offset limit fields).requests = [] ∧
    (get_graph_get_author_papers app t none offset limit fields).result =
      .error (.valueError "Missing required parameter 'author_id'") ∧
    (get_graph_get_paper app t none fields).requests = [] ∧
    (get_graph_get_paper app t none fields).result =
      .error (.valueError "Missing required parameter 'paper_id'") ∧
    (get_graph_get_paper_authors app t none offset limit fields).requests = [] ∧
    (get_graph_get_paper_authors app t none offset limit fields).result =
      .error (.valueError "Missing required parameter 'paper_id'") ∧
    (get_graph_get_paper_citations app t none offset limit fields).requests = [] ∧
    (get_graph_get_paper_citations app t none offset limit fields).result =
      .error (.valueError "Missing required parameter 'paper_id'") ∧
    (get_graph_get_paper_references app t none offset limit fields).requests = [] ∧
    (get_graph_get_paper_references app t none offset limit fields).result =
      .error (.valueError "Missing required parameter 'paper_id'") :=
  ⟨rfl, rfl, rfl, rfl, rfl, rfl, rfl, rfl, rfl, rfl, rfl, rfl⟩

/-- C2: for every operation, the assembled query-parameter mapping (and,
for the two POST operations, the body mapping) contains exactly the keys
of the parameters supplied with a non-absent value, paired with the
supplied values, and no other keys. -/
theorem C2_param_assembly_exact (app : SemanticscholarApp) (t : Transport)
    (pid aid : Value)
    (query offset limit fields ids token sort publicationTypes openAccessPdf
      minCitationCount publicationDateOrYear year venue fieldsOfStudy : Option Value) :
    (∃ r, (post_graph_get_authors app t fields ids).requests = [r] ∧
      (∀ k v, ((k, v) ∈ r.params ↔ (k = "fields" ∧ fields = some v))) ∧
      (∀ k v, ((k, v) ∈ r.body ↔ (k = "ids" ∧ ids = some v)))) ∧
    (∃ r, (get_graph_get_author_search app t query offset limit fields).requests = [r] ∧
      ∀ k v, ((k, v) ∈ r.params ↔
        (k = "offset" ∧ offset = some v) ∨ (k = "limit" ∧ limit = some v) ∨
        (k = "fields" ∧ fields = some v) ∨ (k = "query" ∧ query = some v))) ∧
    (∃ r, (get_graph_get_author app t (some aid) fields).requests = [r] ∧
      ∀ k v, ((k, v) ∈ r.params ↔ (k = "fields" ∧ fields = some v))) ∧
    (∃ r, (get_graph_get_author_papers app t (some aid) offset limit fields).requests = [r] ∧
      ∀ k v, ((k, v) ∈ r.params ↔
        (k = "offset" ∧ offset = some v) ∨ (k = "limit" ∧ limit = some v) ∨
        (k = "fields" ∧ fields = some v))) ∧
    (∃ r, (get_graph_get_paper_autocomplete app t query).requests = [r] ∧
      ∀ k v, ((k, v) ∈ r.params ↔ (k = "query" ∧ query = some v))) ∧
    (∃ r, (post_graph_get_papers app t fields ids).requests = [r] ∧
      (∀ k v, ((k, v) ∈ r.params ↔ (k = "fields" ∧ fields = some v))) ∧
      (∀ k v, ((k, v) ∈ r.body ↔ (k = "ids" ∧ ids = some v)))) ∧
    (∃ r, (get_graph_paper_relevance_search app t query fields publicationTypes openAccessPdf
        minCitationCount publicationDateOrYear year venue fieldsOfStudy offset limit).requests
          = [r] ∧
      ∀ k v, ((k, v) ∈ r.params ↔
        (k = "query" ∧ query = some v) ∨ (k = "fields" ∧ fields = some v) ∨
        (k = "publicationTypes" ∧ publicationTypes = some v) ∨
        (k = "openAccessPdf" ∧ openAccessPdf = some v) ∨
        (k = "minCitationCount" ∧ minCitationCount = some v) ∨
        (k = "publicationDateOrYear" ∧ publicationDateOrYear = some v) ∨
        (k = "year" ∧ year = some v) ∨ (k = "venue" ∧ venue = some v) ∨
        (k = "fieldsOfStudy" ∧ fieldsOfStudy = some v) ∨
        (k = "offset" ∧ offset = some v) ∨ (k = "limit" ∧ limit = some v))) ∧
    (∃ r, (get_graph_paper_bulk_search app t query token fields sort publicationTypes
        openAccessPdf minCitationCount publicationDateOrYear year venue fieldsOfStudy).requests
          = [r] ∧
      ∀ k v, ((k, v) ∈ r.params ↔
        (k = "query" ∧ query = some v) ∨ (k = "token" ∧ token = some v) ∨
        (k = "fields" ∧ fields = some v) ∨ (k = "sort" ∧ sort = some v) ∨
        (k = "publicationTypes" ∧ publicationTypes = some v) ∨
        (k = "openAccessPdf" ∧ openAccessPdf = some v) ∨
        (k = "minCitationCount" ∧ minCitationCount = some v) ∨
        (k = "publicationDateOrYear" ∧ publicationDateOrYear = some v) ∨
        (k = "year" ∧ year = some v) ∨ (k = "venue" ∧ venue = some v) ∨
        (k = "fieldsOfStudy" ∧ fieldsOfStudy = some v))) ∧
    (∃ r, (get_graph_paper_title_search app t query fields publicationTypes openAccessPdf
        minCitationCount publicationDateOrYear year venue fieldsOfStudy).requests = [r] ∧
      ∀ k v, ((k, v) ∈ r.params ↔
        (k = "query" ∧ query = some v) ∨ (k = "fields" ∧ fields = some v) ∨
        (k = "publicationTypes" ∧ publicationTypes = some v) ∨
        (k = "openAccessPdf" ∧ openAccessPdf = some v) ∨
        (k = "minCitationCount" ∧ minCitationCount = some v) ∨
        (k = "publicationDateOrYear" ∧ publicationDateOrYear = some v) ∨
        (k = "year" ∧ year = some v) ∨ (k = "venue" ∧ venue = some v) ∨
        (k = "fieldsOfStudy" ∧ fieldsOfStudy = some v))) ∧
    (∃ r, (get_graph_get_paper app t (some pid) fields).requests = [r] ∧
      ∀ k v, ((k, v) ∈ r.params ↔ (k = "fields" ∧ fields = some v))) ∧
    (∃ r, (get_graph_get_paper_authors app t (some pid) offset limit fields).requests = [r] ∧
      ∀ k v, ((k, v) ∈ r.params ↔
        (k = "offset" ∧ offset = some v) ∨ (k = "limit" ∧ limit = some v) ∨
        (k = "fields" ∧ fields = some v))) ∧
    (∃ r, (get_graph_get_paper_citations app t (some pid) offset limit fields).requests = [r] ∧
      ∀ k v, ((k, v) ∈ r.params ↔
        (k = "offset" ∧ offset = some v) ∨ (k = "limit" ∧ limit = some v) ∨
        (k = "fields" ∧ fields = some v))) ∧
    (∃ r, (get_graph_get_paper_references app t (some pid) offset limit fields).requests = [r] ∧
      ∀ k v, ((k, v) ∈ r.params ↔
        (k = "offset" ∧ offset = some v) ∨ (k = "limit" ∧ limit = some v) ∨
        (k = "fields" ∧ fields = some v))) ∧
    (∃ r, (get_snippet_search app t query limit).requests = [r] ∧
      ∀ k v, ((k, v) ∈ r.params ↔
        (k = "query" ∧ query = some v) ∨ (k = "limit" ∧ limit = some v))) := by
  refine ⟨⟨_, rfl, fun k v => ?_, fun k v => ?_⟩, ⟨_, rfl, fun k v => ?_⟩,
    ⟨_, rfl, fun k v => ?_⟩, ⟨_, rfl, fun k v => ?_⟩, ⟨_, rfl, fun k v => ?_⟩,
    ⟨_, rfl, fun k v => ?_, fun k v => ?_⟩, ⟨_, rfl, fun k v => ?_⟩,
    ⟨_, rfl, fun k v => ?_⟩, ⟨_, rfl, fun k v => ?_⟩, ⟨_, rfl, fun k v => ?_⟩,
    ⟨_, rfl, fun k v => ?_⟩, ⟨_, rfl, fun k v => ?_⟩, ⟨_, rfl, fun k v => ?_⟩,
    ⟨_, rfl, fun k v => ?_⟩⟩ <;>
  simp only [mem_filterNone_cons, mem_filterNone_nil, or_false]

/-- C3 counterexample: at a concrete call, `get_snippet_search` of the
constructed adapter issues its request to `/graph/v1/snippet/search`,
which lies under the `/graph/v1` base path, and not to the sibling path
`/snippet/search` the claim names. -/
theorem C3_counterexample_snippet_path :
    (get_snippet_search (SemanticscholarApp.init none) (constTransport 200 .null)
        (some (.str "bert")) none).requests.map (fun r => r.url)
      = ["/graph/v1/snippet/search"] ∧
    ¬ (get_snippet_search (SemanticscholarApp.init none) (constTransport 200 .null)
        (some (.str "bert")) none).requests.map (fun r => r.url)
      = ["/snippet/search"] :=
  ⟨rfl, by decide⟩

/-- C3 amended: `get_snippet_search` issues its GET request to
`{base_url}/snippet/search`, i.e. to `/graph/v1/snippet/search` for the
constructed adapter — a path nested under the `/graph/v1` base path, not a
sibling of it. -/
theorem C3_snippet_path_nested (i : Option Integration) (t : Transport)
    (query limit : Option Value) :
    (get_snippet_search (SemanticscholarApp.init i) t query limit).requests.map
        (fun r => (r.method, r.url))
      = [(HttpMethod.GET, "/graph/v1/snippet/search")] :=
  rfl

/-- C4: every operation, when its required-identifier precondition holds,
issues exactly one HTTP request: POST for the two batch-fetch operations
(to `{base_url}/author/batch` and `{base_url}/paper/batch`) and GET for
the twelve others, each to its fixed path under `base_url`. -/
theorem C4_single_request_method_url (app : SemanticscholarApp) (t : Transport)
    (pid aid : Value)
    (query offset limit fields ids token sort publicationTypes openAccessPdf
      minCitationCount publicationDateOrYear year venue fieldsOfStudy : Option Value) :
    (post_graph_get_authors app t fields ids).requests.map (fun r => (r.method, r.url))
      = [(HttpMethod.POST, app.base_url ++ "/author/batch")] ∧
    (get_graph_get_author_search app t query offset limit fields).requests.map
        (fun r => (r.method, r.url))
      = [(HttpMethod.GET, app.base_url ++ "/author/search")] ∧
    (get_graph_get_author app t (some aid) fields).requests.map (fun r => (r.method, r.url))
      = [(HttpMethod.GET, app.base_url ++ "/author/" ++ aid.toStr)] ∧
    (get_graph_get_author_papers app t (some aid) offset limit fields).requests.map
        (fun r => (r.method, r.url))
      = [(HttpMethod.GET, app.base_url ++ "/author/" ++ aid.toStr ++ "/papers")] ∧
    (get_graph_get_paper_autocomplete app t query).requests.map (fun r => (r.method, r.url))
      = [(HttpMethod.GET, app.base_url ++ "/paper/autocomplete")] ∧
    (post_graph_get_papers app t fields ids).requests.map (fun r => (r.method, r.url))
      = [(HttpMethod.POST, app.base_url ++ "/paper/batch")] ∧
    (get_graph_paper_relevance_search app t query fields publicationTypes openAccessPdf
        minCitationCount publicationDateOrYear year venue fieldsOfStudy offset limit).requests.map
        (fun r => (r.method, r.url))
      = [(HttpMethod.GET, app.base_url ++ "/paper/search")] ∧
    (get_graph_paper_bulk_search app t query token fields sort publicationTypes openAccessPdf
        minCitationCount publicationDateOrYear year venue fieldsOfStudy).requests.map
        (fun r => (r.method, r.url))
      = [(HttpMethod.GET, app.base_url ++ "/paper/search/bulk")] ∧
    (get_graph_paper_title_search app t query fields publicationTypes openAccessPdf
        minCitationCount publicationDateOrYear year venue fieldsOfStudy).requests.map
        (fun r => (r.method, r.url))
      = [(HttpMethod.GET, app.base_url ++ "/paper/search/match")] ∧
    (get_graph_get_paper app t (some pid) fields).requests.map (fun r => (r.method, r.url))
      = [(HttpMethod.GET, app.base_url ++ "/paper/" ++ pid.toStr)] ∧
    (get_graph_get_paper_authors app t (some pid) offset limit fields).requests.map
        (fun r => (r.method, r.url))
      = [(HttpMethod.GET, app.base_url ++ "/paper/" ++ pid.toStr ++ "/authors")] ∧
    (get_graph_get_paper_citations app t (some pid) offset limit fields).requests.map
        (fun r => (r.method, r.url))
      = [(HttpMethod.GET, app.base_url ++ "/paper/" ++ pid.toStr ++ "/citations")] ∧
    (get_graph_get_paper_references app t (some pid) offset limit fields).requests.map
        (fun r => (r.method, r.url))
      = [(HttpMethod.GET, app.base_url ++ "/paper/" ++ pid.toStr ++ "/references")] ∧
    (get_snippet_search app t query limit).requests.map (fun r => (r.method, r.url))
      = [(HttpMethod.GET, app.base_url ++ "/snippet/search")] :=
  ⟨rfl, rfl, rfl, rfl, rfl, rfl, rfl, rfl, rfl, rfl, rfl, rfl, rfl, rfl⟩

/-- C5: for every operation, when the transport answers with a success
(2xx) status and JSON body `j`, the operation returns `j` unchanged — no
transformation, filtering or schema validation is applied. -/
theorem C5_success_returns_body (s : Nat) (j : Json) (h : 200 ≤ s ∧ s < 300)
    (app : SemanticscholarApp) (pid aid : Value)
    (query offset limit fields ids token sort publicationTypes openAccessPdf
      minCitationCount publicationDateOrYear year venue fieldsOfStudy : Option Value) :
    (post_graph_get_authors app (constTransport s j) fields ids).result = Except.ok j ∧
    (get_graph_get_author_search app (constTransport s j) query offset limit fields).result
      = Except.ok j ∧
    (get_graph_get_author app (constTransport s j) (some aid) fields).result = Except.ok j ∧
    (get_graph_get_author_papers app (constTransport s j) (some aid) offset limit fields).result
      = Except.ok j ∧
    (get_graph_get_paper_autocomplete app (constTransport s j) query).result = Except.ok j ∧
    (post_graph_get_papers app (constTransport s j) fields ids).result = Except.ok j ∧
    (get_graph_paper_relevance_search app (constTransport s j) query fields publicationTypes
        openAccessPdf minCitationCount publicationDateOrYear year venue fieldsOfStudy offset
        limit).result = Except.ok j ∧
    (get_graph_paper_bulk_search app (constTransport s j) query token fields sort
        publicationTypes openAccessPdf minCitationCount publicationDateOrYear year venue
        fieldsOfStudy).result = Except.ok j ∧
    (get_graph_paper_title_search app (constTransport s j) query fields publicationTypes
        openAccessPdf minCitationCount publicationDateOrYear year venue fieldsOfStudy).result
      = Except.ok j ∧
    (get_graph_get_paper app (constTransport s j) (some pid) fields).result = Except.ok j ∧
    (get_graph_get_paper_authors app (constTransport s j) (some pid) offset limit fields).result
      = Except.ok j ∧
    (get_graph_get_paper_citations app (constTransport s j) (some pid) offset limit
        fields).result = Except.ok j ∧
    (get_graph_get_paper_references app (constTransport s j) (some pid) offset limit
        fields).result = Except.ok j ∧
    (get_snippet_search app (constTransport s j) query limit).result = Except.ok j := by
  refine ⟨?_, ?_, ?_, ?_, ?_, ?_, ?_, ?_, ?_, ?_, ?_, ?_, ?_, ?_⟩ <;>
  simp [post_graph_get_authors, get_graph_get_author_search, get_graph_get_author,
    get_graph_get_author_papers, get_graph_get_paper_autocomplete, post_graph_get_papers,
    get_graph_paper_relevance_search, get_graph_paper_bulk_search, get_graph_paper_title_search,
    get_graph_get_paper, get_graph_get_paper_authors, get_graph_get_paper_citations,
    get_graph_get_paper_references, get_snippet_search, httpCall, constTransport, h.1, h.2]

/-- C5 witness: with a mocked transport answering status 200 and body
`null`, a concrete `post_graph_get_authors` call returns that body. -/
theorem C5_success_witness :
    (post_graph_get_authors (SemanticscholarApp.init none) (constTransport 200 Json.null)
        none none).result = Except.ok Json.null :=
  (C5_success_returns_body 200 Json.null (by decide) (SemanticscholarApp.init none)
    (Value.str "p") (Value.str "a") none none none none none none none none none none
    none none none none).1

/-- C6: for every operation, when the transport answers with a non-success
status, the operation raises the transport status error unchanged — no
retry, no classification — and returns no JSON result. -/
theorem C6_error_propagates (s : Nat) (j : Json) (h : ¬(200 ≤ s ∧ s < 300))
    (app : SemanticscholarApp) (pid aid : Value)
    (query offset limit fields ids token sort publicationTypes openAccessPdf
      minCitationCount publicationDateOrYear year venue fieldsOfStudy : Option Value) :
    (post_graph_get_authors app (constTransport s j) fields ids).result
      = Except.error (Error.httpStatusError s) ∧
    (get_graph_get_author_search app (constTransport s j) query offset limit fields).result
      = Except.error (Error.httpStatusError s) ∧
    (get_graph_get_author app (constTransport s j) (some aid) fields).result
      = Except.error (Error.httpStatusError s) ∧
    (get_graph_get_author_papers app (constTransport s j) (some aid) offset limit fields).result
      = Except.error (Error.httpStatusError s) ∧
    (get_graph_get_paper_autocomplete app (constTransport s j) query).result
      = Except.error (Error.httpStatusError s) ∧
    (post_graph_get_papers app (constTransport s j) fields ids).result
      = Except.error (Error.httpStatusError s) ∧
    (get_graph_paper_relevance_search app (constTransport s j) query fields publicationTypes
        openAccessPdf minCitationCount publicationDateOrYear year venue fieldsOfStudy offset
        limit).result = Except.error (Error.httpStatusError s) ∧
    (get_graph_paper_bulk_search app (constTransport s j) query token fields sort
        publicationTypes openAccessPdf minCitationCount publicationDateOrYear year venue
        fieldsOfStudy).result = Except.error (Error.httpStatusError s) ∧
    (get_graph_paper_title_search app (constTransport s j) query fields publicationTypes
        openAccessPdf minCitationCount publicationDateOrYear year venue fieldsOfStudy).result
      = Except.error (Error.httpStatusError s) ∧
    (get_graph_get_paper app (constTransport s j) (some pid) fields).result
      = Except.error (Error.httpStatusError s) ∧
    (get_graph_get_paper_authors app (constTransport s j) (some pid) offset limit fields).result
      = Except.error (Error.httpStatusError s) ∧
    (get_graph_get_paper_citations app (constTransport s j) (some pid) offset limit
        fields).result = Except.error (Error.httpStatusError s) ∧
    (get_graph_get_paper_references app (constTransport s j) (some pid) offset limit
        fields).result = Except.error (Error.httpStatusError s) ∧
    (get_snippet_search app (constTransport s j) query limit).result
      = Except.error (Error.httpStatusError s) := by
  refine ⟨?_, ?_, ?_, ?_, ?_, ?_, ?_, ?_, ?_, ?_, ?_, ?_, ?_, ?_⟩ <;>
  simp [post_graph_get_authors, get_graph_get_author_search, get_graph_get_author,
    get_graph_get_author_papers, get_graph_get_paper_autocomplete, post_graph_get_papers,
    get_graph_paper_relevance_search, get_graph_paper_bulk_search, get_graph_paper_title_search,
    get_graph_get_paper, get_graph_get_paper_authors, get_graph_get_paper_citations,
    get_graph_get_paper_references, get_snippet_search, httpCall, constTransport, h]

/-- C6 witness: with a mocked transport answering status 404, a concrete
`post_graph_get_authors` call propagates the status error. -/
theorem C6_error_witness :
    (post_graph_get_authors (SemanticscholarApp.init none) (constTransport 404 Json.null)
        none none).result = Except.error (Error.httpStatusError 404) :=
  (C6_error_propagates 404 Json.null (by decide) (SemanticscholarApp.init none)
    (Value.str "p") (Value.str "a") none none none none none none none none none none
    none none none none).1

/-- C7: `post_graph_get_papers` with `ids = ["A1", "A2"]` issues POST to
`/graph/v1/paper/batch` with body exactly `{ids: [A1, A2]}` and empty
query parameters; in general a supplied `ids` argument becomes the single
`ids` field of the POST body of both batch operations. -/
theorem C7_batch_ids_body (i : Option Integration) (app : SemanticscholarApp) (t : Transport)
    (fields : Option Value) (idsP idsA : Value) :
    (post_graph_get_papers (SemanticscholarApp.init i) t none
        (some (.arr ["A1", "A2"]))).requests
      = [{ method := HttpMethod.POST, url := "/graph/v1/paper/batch", params := [],
           body := [("ids", Value.arr ["A1", "A2"])] }] ∧
    (post_graph_get_papers app t fields (some idsP)).requests.map (fun r => r.body)
      = [[("ids", idsP)]] ∧
    (post_graph_get_authors app t fields (some idsA)).requests.map (fun r => r.body)
      = [[("ids", idsA)]] :=
  ⟨rfl, rfl, rfl⟩

/-- C8: no operation mutates the adapter: whatever the arguments (the
required identifier absent or present) and whatever the transport answers,
the adapter state after the call equals the state before it. -/
theorem C8_no_state_mutation (app : SemanticscholarApp) (t : Transport)
    (author_id paper_id query offset limit fields ids token sort publicationTypes openAccessPdf
      minCitationCount publicationDateOrYear year venue fieldsOfStudy : Option Value) :
    (post_graph_get_authors app t fields ids).app = app ∧
    (get_graph_get_author_search app t query offset limit fields).app = app ∧
    (get_graph_get_author app t author_id fields).app = app ∧
    (get_graph_get_author_papers app t author_id offset limit fields).app = app ∧
    (get_graph_get_paper_autocomplete app t query).app = app ∧
    (post_graph_get_papers app t fields ids).app = app ∧
    (get_graph_paper_relevance_search app t query fields publicationTypes openAccessPdf
        minCitationCount publicationDateOrYear year venue fieldsOfStudy offset limit).app
      = app ∧
    (get_graph_paper_bulk_search app t query token fields sort publicationTypes openAccessPdf
        minCitationCount publicationDateOrYear year venue fieldsOfStudy).app = app ∧
    (get_graph_paper_title_search app t query fields publicationTypes openAccessPdf
        minCitationCount publicationDateOrYear year venue fieldsOfStudy).app = app ∧
    (get_graph_get_paper app t paper_id fields).app = app ∧
    (get_graph_get_paper_authors app t paper_id offset limit fields).app = app ∧
    (get_graph_get_paper_citations app t paper_id offset limit fields).app = app ∧
    (get_graph_get_paper_references app t paper_id offset limit fields).app = app ∧
    (get_snippet_search app t query limit).app = app := by
  refine ⟨rfl, rfl, ?_, ?_, rfl, rfl, rfl, rfl, rfl, ?_, ?_, ?_, ?_, rfl⟩ <;>
  first
    | (cases author_id <;> rfl)
    | (cases paper_id <;> rfl)

/-- C9: the six operations whose only required parameter is the query
string perform no presence check on it: with `query = None` each raises no
`ValueError`, still issues its single HTTP request, and silently omits the
`query` key from the query parameters. -/
theorem C9_query_not_checked (app : SemanticscholarApp) (t : Transport)
    (offset limit fields token sort publicationTypes openAccessPdf minCitationCount
      publicationDateOrYear year venue fieldsOfStudy : Option Value) :
    ((∃ r, (get_graph_get_author_search app t none offset limit fields).requests = [r] ∧
        r.method = HttpMethod.GET ∧ r.url = app.base_url ++ "/author/search" ∧
        ∀ v, ("query", v) ∉ r.params) ∧
      ∀ msg, (get_graph_get_author_search app t none offset limit fields).result
        ≠ Except.error (.valueError msg)) ∧
    ((∃ r, (get_graph_get_paper_autocomplete app t none).requests = [r] ∧
        r.method = HttpMethod.GET ∧ r.url = app.base_url ++ "/paper/autocomplete" ∧
        ∀ v, ("query", v) ∉ r.params) ∧
      ∀ msg, (get_graph_get_paper_autocomplete app t none).result
        ≠ Except.error (.valueError msg)) ∧
    ((∃ r, (get_graph_paper_relevance_search app t none fields publicationTypes openAccessPdf
          minCitationCount publicationDateOrYear year venue fieldsOfStudy offset
          limit).requests = [r] ∧
        r.method = HttpMethod.GET ∧ r.url = app.base_url ++ "/paper/search" ∧
        ∀ v, ("query", v) ∉ r.params) ∧
      ∀ msg, (get_graph_paper_relevance_search app t none fields publicationTypes openAccessPdf
          minCitationCount publicationDateOrYear year venue fieldsOfStudy offset limit).result
        ≠ Except.error (.valueError msg)) ∧
    ((∃ r, (get_graph_paper_bulk_search app t none token fields sort publicationTypes
          openAccessPdf minCitationCount publicationDateOrYear year venue
          fieldsOfStudy).requests = [r] ∧
        r.method = HttpMethod.GET ∧ r.url = app.base_url ++ "/paper/search/bulk" ∧
        ∀ v, ("query", v) ∉ r.params) ∧
      ∀ msg, (get_graph_paper_bulk_search app t none token fields sort publicationTypes
          openAccessPdf minCitationCount publicationDateOrYear year venue fieldsOfStudy).result
        ≠ Except.error (.valueError msg)) ∧
    ((∃ r, (get_graph_paper_title_search app t none fields publicationTypes openAccessPdf
          minCitationCount publicationDateOrYear year venue fieldsOfStudy).requests = [r] ∧
        r.method = HttpMethod.GET ∧ r.url = app.base_url ++ "/paper/search/match" ∧
        ∀ v, ("query", v) ∉ r.params) ∧
      ∀ msg, (get_graph_paper_title_search app t none fields publicationTypes openAccessPdf
          minCitationCount publicationDateOrYear year venue fieldsOfStudy).result
        ≠ Except.error (.valueError msg)) ∧
    ((∃ r, (get_snippet_search app t none limit).requests = [r] ∧
        r.method = HttpMethod.GET ∧ r.url = app.base_url ++ "/snippet/search" ∧
        ∀ v, ("query", v) ∉ r.params) ∧
      ∀ msg, (get_snippet_search app t none limit).result
        ≠ Except.error (.valueError msg)) := by
  refine ⟨⟨⟨_, rfl, rfl, rfl, fun v h => ?_⟩, ?_⟩, ⟨⟨_, rfl, rfl, rfl, fun v h => ?_⟩, ?_⟩,
    ⟨⟨_, rfl, rfl, rfl, fun v h => ?_⟩, ?_⟩, ⟨⟨_, rfl, rfl, rfl, fun v h => ?_⟩, ?_⟩,
    ⟨⟨_, rfl, rfl, rfl, fun v h => ?_⟩, ?_⟩, ⟨⟨_, rfl, rfl, rfl, fun v h => ?_⟩, ?_⟩⟩ <;>
  first
    | (simp only [mem_filterNone_cons, mem_filterNone_nil, or_false] at h; simp at h)
    | (intro msg;
       simp only [get_graph_get_author_search, get_graph_get_paper_autocomplete,
         get_graph_paper_relevance_search, get_graph_paper_bulk_search,
         get_graph_paper_title_search, get_snippet_search, httpCall];
       split <;> simp)

/-- C10: calling either batch operation with `ids = None` raises no error:
the `ids` key is dropped, so the POST request is issued with an entirely
empty body. -/
theorem C10_ids_absent_empty_body (app : SemanticscholarApp) (t : Transport)
    (fields : Option Value) :
    (∃ r, (post_graph_get_authors app t fields none).requests = [r] ∧
      r.method = HttpMethod.POST ∧ r.url = app.base_url ++ "/author/batch" ∧ r.body = []) ∧
    (∀ msg, (post_graph_get_authors app t fields none).result
      ≠ Except.error (.valueError msg)) ∧
    (∃ r, (post_graph_get_papers app t fields none).requests = [r] ∧
      r.method = HttpMethod.POST ∧ r.url = app.base_url ++ "/paper/batch" ∧ r.body = []) ∧
    (∀ msg, (post_graph_get_papers app t fields none).result
      ≠ Except.error (.valueError msg)) := by
  refine ⟨⟨_, rfl, rfl, rfl, rfl⟩, ?_, ⟨_, rfl, rfl, rfl, rfl⟩, ?_⟩ <;>
  · intro msg
    simp only [post_graph_get_authors, post_graph_get_papers, httpCall]
    split <;> simp

end Semanticscholar
